import Mathlib

/-!
Verification of the script-synthesis core of builder-backend-app.

The definitions below are a shallow embedding of
`src/utils/scriptGenerator.util.go`.  Strings are Lean `String`s; Go
`map[string]interface{}` values are association lists whose list order stands
for the (unspecified) Go map iteration order, so that order-dependence of the
generated text can be stated explicitly; JSON-decoded `interface{}` values are
the inductive `JValue`, with Go `float64` numbers modelled as exact rationals;
`time.Now()` is an explicit `now` parameter.
-/

namespace BuilderBackend

/-- A JSON-decoded dynamic value (Go `interface{}` as produced by
`encoding/json`): strings, numbers (`float64`, modelled as exact rationals),
booleans, arrays, and a fallback constructor carrying the `fmt` `%v` rendering
of any other value (nested objects, `nil`, ...). -/
inductive JValue where
  | str (s : String)
  | num (q : ℚ)
  | bool (b : Bool)
  | arr (xs : List JValue)
  | other (v : String)

/-- One entry of the `Inputs` field of a `Node` (`type Input struct`). -/
structure Input where
  name : String
  ty : String

/-- `type Node struct` from `scriptGenerator.util.go`.  `vars` is the Go
field `Variables` (the word is reserved in Lean); it and `output` are Go
maps, and the association list fixes one iteration order. -/
structure Node where
  id : String
  name : String
  stage : Int
  description : String
  code : String
  inputs : List Input
  output : List (String × JValue)
  vars : List (String × JValue)

/-- `type WorkflowConfig struct`. -/
structure WorkflowConfig where
  version : String
  exportedAt : String
  nodes : List Node

/-! ### Character-list models of the Go `strings` helpers -/

/-- `strings.Join` on the given separator. -/
def joinSep (sep : String) : List String → String
  | [] => ""
  | [x] => x
  | x :: y :: rest => x ++ sep ++ joinSep sep (y :: rest)

/-- Whether `pat` occurs contiguously in the character list (`strings.Contains`). -/
def listContains (pat : List Char) : List Char → Bool
  | [] => pat.isEmpty
  | c :: rest => pat.isPrefixOf (c :: rest) || listContains pat rest

/-- `strings.Contains s pat`. -/
def strContains (s pat : String) : Bool := listContains pat.data s.data

/-- Number of (possibly overlapping) occurrences of `pat`, tail-recursively;
used to state facts about generated scripts. -/
def occCount (pat : List Char) : Nat → List Char → Nat
  | acc, [] => acc
  | acc, c :: rest =>
    if pat.isPrefixOf (c :: rest) then occCount pat (acc + 1) rest
    else occCount pat acc rest

/-- Occurrences of `pat` in `s`. -/
def strOcc (s pat : String) : Nat := occCount pat.data 0 s.data

/-- `strings.HasPrefix s p`. -/
def hasPre (s p : String) : Bool := p.data.isPrefixOf s.data

/-- `strings.HasSuffix s p`. -/
def hasSuf (s p : String) : Bool := p.data.reverse.isPrefixOf s.data.reverse

/-- `strings.ToLower` (the generated names are ASCII; only ASCII letters are
mapped, as `Char.toLower` does). -/
def strToLower (s : String) : String := ⟨s.data.map Char.toLower⟩

/-- `strings.ReplaceAll s " " "_"` (a one-character pattern, hence a map). -/
def replaceSpaces (s : String) : String :=
  ⟨s.data.map (fun c => if c = ' ' then '_' else c)⟩

/-- ASCII whitespace, the fragment of `unicode.IsSpace` relevant here. -/
def isSpaceChar (c : Char) : Bool := c = ' ' || c = '\t' || c = '\n' || c = '\r'

/-- `strings.TrimSpace`. -/
def strTrimSpace (s : String) : String :=
  ⟨((s.data.dropWhile isSpaceChar).reverse.dropWhile isSpaceChar).reverse⟩

/-- `strings.Split` on a non-empty separator, written with structural fuel
(one unit per consumed character) so that it evaluates by kernel reduction. -/
def splitOnFuel (sep : List Char) : Nat → List Char → List Char → List (List Char)
  | 0, _, acc => [acc.reverse]
  | _ + 1, [], acc => [acc.reverse]
  | fuel + 1, c :: rest, acc =>
    if sep ≠ [] ∧ sep.isPrefixOf (c :: rest) then
      acc.reverse :: splitOnFuel sep fuel (List.drop (sep.length - 1) rest) []
    else
      splitOnFuel sep fuel rest (c :: acc)

/-- `strings.Split s sep` for non-empty `sep`. -/
def splitOnStr (s sep : String) : List String :=
  (splitOnFuel sep.data s.data.length s.data []).map (fun cs => ⟨cs⟩)

/-! ### Number formatting (`fmt` verbs on `float64`, modelled on `ℚ`) -/

/-- Left-pads with `'0'` to the given width (the `%06d` effect inside `%f`). -/
def padZeros (width : Nat) (s : String) : String :=
  ⟨List.replicate (width - s.data.length) '0'⟩ ++ s

/-- `fmt.Sprintf("%f", v)` for `v ≥ 0`: fixed six decimal places.  Numbers are
exact rationals here; the rounding of the scaled value is round-half-up, which
agrees with Go on every value that is not an exact tie at the 7th decimal. -/
def fmtFixed6Abs (q : ℚ) : String :=
  let m : Int := (2 * q.num * 1000000 + q.den) / (2 * q.den)
  toString (m / 1000000) ++ "." ++ padZeros 6 (toString ((m % 1000000).toNat))

/-- `fmt.Sprintf("%f", v)`: fixed six decimal places, sign first. -/
def fmtFixed6 (q : ℚ) : String :=
  if q < 0 then "-" ++ fmtFixed6Abs (-q) else fmtFixed6Abs q

/-- The `case float64` arm shared by `buildVariablesString` and `formatList`:
`if v == float64(int(v))` print `%d` of the integer, else print `%f`. -/
def fmtGoNumber (q : ℚ) : String :=
  if q.den = 1 then toString q.num else fmtFixed6 q

/-! ### `strconv.ParseFloat` acceptance

`isNumeric` calls `strconv.ParseFloat(s, 64)` and only looks at the error.
The recognizer below models the accepted syntax: optional sign; `inf`,
`infinity` (sign allowed) and `nan` (no sign) case-insensitively; decimal
mantissa with optional fraction and `e`-exponent; hexadecimal mantissa with
mandatory `p`-exponent.  Digit-separating underscores and the out-of-range
(`ErrRange`) rejection are not modelled; no claim depends on them. -/

/-- Hexadecimal digit. -/
def isHexDigitChar (c : Char) : Bool :=
  c.isDigit || ('a' ≤ c && c ≤ 'f') || ('A' ≤ c && c ≤ 'F')

/-- Drops one leading `+`/`-`. -/
def dropSign (l : List Char) : List Char :=
  match l with
  | c :: r => if c = '+' || c = '-' then r else l
  | [] => []

/-- Accepts an optional trailing decimal exponent (`e`/`E`, optional sign, at
least one digit) consuming the whole rest of the string. -/
def acceptExpPart (l : List Char) : Bool :=
  match l with
  | [] => true
  | c :: r =>
    (c = 'e' || c = 'E') &&
      (let r2 := dropSign r
       !r2.isEmpty && r2.all Char.isDigit)

/-- Accepts a decimal mantissa (digits, optional fraction; at least one digit
overall) followed by an optional exponent. -/
def acceptDecTail (l : List Char) : Bool :=
  let ds1 := l.takeWhile Char.isDigit
  let r1 := l.dropWhile Char.isDigit
  match r1 with
  | '.' :: r2 =>
    let ds2 := r2.takeWhile Char.isDigit
    let r3 := r2.dropWhile Char.isDigit
    decide (0 < ds1.length + ds2.length) && acceptExpPart r3
  | _ => decide (0 < ds1.length) && acceptExpPart r1

/-- Accepts a mandatory binary exponent (`p`/`P`, optional sign, digits). -/
def acceptPExp (l : List Char) : Bool :=
  match l with
  | [] => false
  | c :: r =>
    (c = 'p' || c = 'P') &&
      (let r2 := dropSign r
       !r2.isEmpty && r2.all Char.isDigit)

/-- Accepts a hexadecimal float (`0x`/`0X`, hex mantissa, `p`-exponent). -/
def acceptHexTail (l : List Char) : Bool :=
  match l with
  | '0' :: c :: r =>
    if c = 'x' || c = 'X' then
      let hs1 := r.takeWhile isHexDigitChar
      let r1 := r.dropWhile isHexDigitChar
      match r1 with
      | '.' :: r2 =>
        let hs2 := r2.takeWhile isHexDigitChar
        let r3 := r2.dropWhile isHexDigitChar
        decide (0 < hs1.length + hs2.length) && acceptPExp r3
      | _ => decide (0 < hs1.length) && acceptPExp r1
    else false
  | _ => false

/-- Whether `strconv.ParseFloat(s, 64)` succeeds (see the note above). -/
def goParseFloatAccepts (s : String) : Bool :=
  let low := s.data.map Char.toLower
  if low == "inf".data || low == "+inf".data || low == "-inf".data ||
      low == "infinity".data || low == "+infinity".data || low == "-infinity".data ||
      low == "nan".data then
    true
  else
    acceptHexTail (dropSign s.data) || acceptDecTail (dropSign s.data)

/-- `func isNumeric(s string) bool`: empty strings are rejected, everything
else is handed to `strconv.ParseFloat`. -/
def isNumeric (s : String) : Bool :=
  if s = "" then false else goParseFloatAccepts s

/-! ### Variable-binding serialization -/

/-- `fmt` `%v` rendering for the values that can reach the `default` branches
of the type switches: booleans, nested slices, opaque values (carried verbatim
in `JValue.other`).  The `str`/`num` cases never reach `%v` from this file
because the type switches match them first; they are given their natural
rendering for totality.  `goVerbF` carries structural fuel (one unit per
nesting level) so that it evaluates by kernel reduction; `goVerb` supplies a
fuel bound far above any value considered here. -/
def goVerbF : Nat → JValue → String
  | _, .str s => s
  | _, .num q => fmtGoNumber q
  | _, .bool b => if b then "true" else "false"
  | _, .other v => v
  | 0, .arr _ => "[]"
  | fuel + 1, .arr xs => "[" ++ joinSep " " (xs.map (goVerbF fuel)) ++ "]"

/-- `fmt` `%v` (see `goVerbF`). -/
def goVerb (v : JValue) : String := goVerbF 1000000 v

/-- One element of a list-valued binding, as the `switch` inside
`func formatList` renders it: strings are always single-quoted, `float64`
values follow the integer/fixed-float rule, everything else falls to `%v`. -/
def formatListElem : JValue → String
  | .str s => "'" ++ s ++ "'"
  | .num q => fmtGoNumber q
  | v => goVerb v

/-- `func formatList(list []interface{}) string`. -/
def formatList (xs : List JValue) : String :=
  "[" ++ joinSep ", " (xs.map formatListElem) ++ "]"

/-- The body of the `range vars` loop of `buildVariablesString`: `none`
when the entry is skipped (empty-string value), otherwise the formatted
`key=value` part.  The string arm mirrors the `case string` chain: Python
keyword spellings, numeric strings (per `isNumeric`), and strings wrapped in
`()`, `[]` or `{}` stay unquoted; other strings are single-quoted. -/
def formatBinding (key : String) : JValue → Option String
  | .str v =>
    if v = "" then none
    else if v = "None" || v = "True" || v = "False" then some (key ++ "=" ++ v)
    else if isNumeric v then some (key ++ "=" ++ v)
    else if hasPre v "(" && hasSuf v ")" then some (key ++ "=" ++ v)
    else if hasPre v "[" && hasSuf v "]" then some (key ++ "=" ++ v)
    else if hasPre v "\x7b" && hasSuf v "\x7d" then some (key ++ "=" ++ v)
    else some (key ++ "='" ++ v ++ "'")
  | .num q => some (key ++ "=" ++ fmtGoNumber q)
  | .bool b => some (key ++ "=" ++ (if b then "True" else "False"))
  | .arr xs => some (key ++ "=" ++ formatList xs)
  | .other v => some (key ++ "=" ++ v)

/-- `func buildVariablesString(variables map[string]interface{}) string`.
The list order is the map iteration order (see the header note). -/
def buildVariablesString (vars : List (String × JValue)) : String :=
  if vars.isEmpty then ""
  else joinSep ", " (vars.filterMap (fun kv => formatBinding kv.1 kv.2))

/-- `func filterOutParameter(varStr string, paramToRemove string) string`. -/
def filterOutParameter (varStr param : String) : String :=
  if varStr = "" then ""
  else joinSep ", " ((splitOnStr varStr ", ").filter
    (fun part => !((param ++ "=").data.isPrefixOf (strTrimSpace part).data)))

/-! ### Name-pattern helpers -/

/-- `func isSplitComponent(funcName string) bool`. -/
def isSplitComponent (funcName : String) : Bool :=
  let lowerFunc := strToLower funcName
  strContains lowerFunc "split" || strContains lowerFunc "stratified"

/-- `func isCrossValidationComponent(funcName string) bool`. -/
def isCrossValidationComponent (funcName : String) : Bool :=
  let lowerFunc := strToLower funcName
  ["cross", "kfold", "k_fold", "_cv", "crossval"].any (fun k => strContains lowerFunc k)

/-- `func isRowFilteringComponent(funcName string) bool`. -/
def isRowFilteringComponent (funcName : String) : Bool :=
  let lowerFunc := strToLower funcName
  ["outlier", "remove", "drop", "filter"].any (fun k => strContains lowerFunc k)

/-- `compName` as derived at the top of `generateComponentExecution`. -/
def compNameOf (node : Node) : String :=
  if node.name = "" then node.code else node.name

/-- `funcName` as derived at the top of `generateComponentExecution`. -/
def funcNameOf (node : Node) : String :=
  if node.code = "" then strToLower (replaceSpaces (compNameOf node)) else node.code

/-! ### Script templates

The following definitions are the raw-string templates written by
`GenerateExecutableScript` and `generateComponentExecution` (with the
`fmt.Sprintf` verbs as parameters).  Literal brace characters are written
`\x7b`/`\x7d`.  Where the source emits one large literal, it is split here
into named consecutive blocks (`evalBanner ++ evalSelectBlock ++
evalEncodePredict`, `saveOutputText ++ mainEntryText`, ...) so that theorems
can name the block a claim talks about; the concatenation is character-for-
character the source template. -/

def scriptHeader (now version : String) (total : Nat) (componentCode : String) : String :=
  ""
    ++ "#!/usr/bin/env python3\n"
    ++ "\"\"\"\n"
    ++ "Auto-generated Pipeline Script\n"
    ++ "Generated at: " ++ now ++ "\n"
    ++ "Version: " ++ version ++ "\n"
    ++ "Total Components: " ++ toString total ++ "\n"
    ++ "\"\"\"\n"
    ++ "\n"
    ++ "import pandas as pd\n"
    ++ "import numpy as np\n"
    ++ "import sys\n"
    ++ "import argparse\n"
    ++ "import warnings\n"
    ++ "warnings.filterwarnings('ignore', category=FutureWarning)\n"
    ++ "\n"
    ++ "# ==============================" ++ "==============================\n"
    ++ "# COMPONENT FUNCTIONS\n"
    ++ "# ==============================" ++ "==============================\n"
    ++ "\n"
    ++ componentCode ++ "\n"
    ++ "\n"
    ++ "# ==============================" ++ "==============================\n"
    ++ "# PIPELINE EXECUTION\n"
    ++ "# ==============================" ++ "==============================\n"
    ++ "\n"
    ++ "def execute_pipeline(data_file, target_column='target', output_file='output.csv', skip_split_warning=False):\n"
    ++ "    \"\"\"Execute the complete pipeline\"\"\"\n"
    ++ "    \n"
    ++ "    print(\"=\"*60)\n"
    ++ "    print(\"PIPELINE EXECUTION\")\n"
    ++ "    print(\"=\"*60)\n"
    ++ "    \n"
    ++ "    # Load data\n"
    ++ "    print(f\"\\n[LOADING DATA]\")\n"
    ++ "    df = pd.read_csv(data_file)\n"
    ++ "    print(f\"✓ Loaded \x7blen(df)\x7d samples\")\n"
    ++ "    print(f\"✓ Columns: \x7blist(df.columns)\x7d\")\n"
    ++ "    \n"
    ++ "    # Separate features and target\n"
    ++ "    if target_column in df.columns:\n"
    ++ "        X = df.drop(columns=[target_column])\n"
    ++ "        y = df[target_column]\n"
    ++ "        print(f\"✓ Target column: \x7btarget_column\x7d\")\n"
    ++ "    else:\n"
    ++ "        X = df\n"
    ++ "        y = None\n"
    ++ "        print(f\"⚠ No target column found, processing features only\")\n"
    ++ "    \n"
    ++ "    # Initialize pipeline variables\n"
    ++ "    current_data = X\n"
    ++ "    model = None\n"
    ++ "    le = None\n"
    ++ "    X_train, X_test, y_train, y_test = None, None, None, None\n"
    ++ "    split_performed = False\n"
    ++ "    \n"

def stageBanner (stageNum : Int) : String :=
  ""
    ++ "    # ==============================" ++ "==============================\n"
    ++ "    # STAGE " ++ toString stageNum ++ "\n"
    ++ "    # ==============================" ++ "==============================\n"
    ++ "    print(f\"\\n[STAGE " ++ toString stageNum ++ "]\")\n"
    ++ "    \n"

def stage12Head (index total : Nat) (compName : String) : String :=
  ""
    ++ "    print(f\"  [" ++ toString index ++ "/" ++ toString total ++ "] Executing: " ++ compName ++ "\")\n"
    ++ "    try:\n"

def splitCallArgsT (funcName filteredVarStr : String) : String :=
  ""
    ++ "        if y is not None:\n"
    ++ "            X_train, X_test, y_train, y_test = " ++ funcName ++ "(df, target_column, " ++ filteredVarStr ++ ")\n"
    ++ "            current_data = X_train\n"
    ++ "            split_performed = True\n"
    ++ "            print(f\"    ✓ Split into train (\x7blen(X_train)\x7d) and test (\x7blen(X_test)\x7d) sets\")\n"
    ++ "        else:\n"
    ++ "            print(f\"    ⚠ No target column, skipping train/test split\")\n"

def splitCallNoArgsT (funcName : String) : String :=
  ""
    ++ "        if y is not None:\n"
    ++ "            X_train, X_test, y_train, y_test = " ++ funcName ++ "(df, target_column)\n"
    ++ "            current_data = X_train\n"
    ++ "            split_performed = True\n"
    ++ "            print(f\"    ✓ Split into train (\x7blen(X_train)\x7d) and test (\x7blen(X_test)\x7d) sets\")\n"
    ++ "        else:\n"
    ++ "            print(f\"    ⚠ No target column, skipping train/test split\")\n"

def resultCallArgsT (funcName varStr : String) : String :=
  ""
    ++ "        result = " ++ funcName ++ "(current_data, " ++ varStr ++ ")\n"

def resultCallNoArgsT (funcName : String) : String :=
  ""
    ++ "        result = " ++ funcName ++ "(current_data)\n"

def tupleUnwrap : String :=
  ""
    ++ "        if isinstance(result, tuple):\n"
    ++ "            current_data = result[0]\n"
    ++ "        else:\n"
    ++ "            current_data = result\n"

def syncBlock : String :=
  ""
    ++ "        \n"
    ++ "        # Synchronize target variable if rows were removed\n"
    ++ "        if y is not None and not split_performed:\n"
    ++ "            if isinstance(current_data, pd.DataFrame) and len(current_data) != len(y):\n"
    ++ "                y = y.loc[current_data.index]\n"
    ++ "                print(f\"    ⚠ Synced target variable: \x7blen(y)\x7d samples remaining\")\n"

def stage12Tail : String :=
  ""
    ++ "        print(f\"    ✓ Completed\")\n"
    ++ "    except Exception as e:\n"
    ++ "        print(f\"    ⚠ Error: \x7be\x7d\")\n"
    ++ "        print(f\"    Skipping component...\")\n"
    ++ "    \n"

def stage3Head (index total : Nat) (compName : String) : String :=
  ""
    ++ "    print(f\"  [" ++ toString index ++ "/" ++ toString total ++ "] Training: " ++ compName ++ "\")\n"
    ++ "    if y is not None or y_train is not None:\n"
    ++ "        try:\n"
    ++ "            # Prepare data for training\n"
    ++ "            if split_performed and X_train is not None:\n"
    ++ "                # Use split data\n"
    ++ "                if isinstance(X_train, pd.DataFrame):\n"
    ++ "                    X_for_training = X_train.values\n"
    ++ "                else:\n"
    ++ "                    X_for_training = X_train\n"
    ++ "                y_for_training = y_train\n"
    ++ "                print(f\"    ℹ Using training split: \x7blen(X_for_training)\x7d samples\")\n"
    ++ "            else:\n"
    ++ "                # Use all data\n"
    ++ "                if isinstance(current_data, pd.DataFrame):\n"
    ++ "                    X_for_training = current_data.values\n"
    ++ "                else:\n"
    ++ "                    X_for_training = current_data\n"
    ++ "                y_for_training = y\n"
    ++ "                print(f\"    ℹ Using all data: \x7blen(X_for_training)\x7d samples\")\n"
    ++ "            \n"
    ++ "            # Encode labels if needed\n"
    ++ "            if hasattr(y_for_training, 'dtype') and y_for_training.dtype == 'object':\n"
    ++ "                from sklearn.preprocessing import LabelEncoder\n"
    ++ "                le = LabelEncoder()\n"
    ++ "                y_encoded = le.fit_transform(y_for_training)\n"
    ++ "                print(f\"    ✓ Encoded \x7blen(le.classes_)\x7d classes: \x7blist(le.classes_)\x7d\")\n"
    ++ "            else:\n"
    ++ "                y_encoded = y_for_training.values if hasattr(y_for_training, 'values') else y_for_training\n"
    ++ "            \n"
    ++ "            # Train model\n"

def modelCallArgsT (funcName varStr : String) : String :=
  ""
    ++ "            model = " ++ funcName ++ "(X_for_training, y_encoded, " ++ varStr ++ ")\n"

def modelCallNoArgsT (funcName : String) : String :=
  ""
    ++ "            model = " ++ funcName ++ "(X_for_training, y_encoded)\n"

def stage3Tail : String :=
  ""
    ++ "            print(f\"    ✓ Model trained successfully\")\n"
    ++ "        except Exception as e:\n"
    ++ "            print(f\"    ⚠ Training failed: \x7be\x7d\")\n"
    ++ "            import traceback\n"
    ++ "            traceback.print_exc()\n"
    ++ "            model = None\n"
    ++ "    else:\n"
    ++ "        print(f\"    ⚠ No target column, skipping training\")\n"
    ++ "        model = None\n"
    ++ "    \n"

def cvHead (index total : Nat) (compName : String) : String :=
  ""
    ++ "    print(f\"  [" ++ toString index ++ "/" ++ toString total ++ "] Evaluating: " ++ compName ++ "\")\n"
    ++ "    if model is not None and (y is not None or y_train is not None):\n"
    ++ "        try:\n"
    ++ "            # Prepare data for CV\n"
    ++ "            if split_performed and X_train is not None:\n"
    ++ "                X_for_cv = X_train.values if isinstance(X_train, pd.DataFrame) else X_train\n"
    ++ "                y_for_cv = y_train\n"
    ++ "            else:\n"
    ++ "                X_for_cv = current_data.values if isinstance(current_data, pd.DataFrame) else current_data\n"
    ++ "                y_for_cv = y\n"
    ++ "            \n"
    ++ "            # Encode if needed\n"
    ++ "            if hasattr(y_for_cv, 'dtype') and y_for_cv.dtype == 'object':\n"
    ++ "                if le is None:\n"
    ++ "                    from sklearn.preprocessing import LabelEncoder\n"
    ++ "                    le = LabelEncoder()\n"
    ++ "                    y_encoded = le.fit_transform(y_for_cv)\n"
    ++ "                else:\n"
    ++ "                    y_encoded = le.transform(y_for_cv)\n"
    ++ "            else:\n"
    ++ "                y_encoded = y_for_cv.values if hasattr(y_for_cv, 'values') else y_for_cv\n"
    ++ "            \n"
    ++ "            # Perform cross-validation\n"

def cvCallArgsT (funcName varStr : String) : String :=
  ""
    ++ "            cv_results = " ++ funcName ++ "(model, X_for_cv, y_encoded, " ++ varStr ++ ")\n"

def cvCallNoArgsT (funcName : String) : String :=
  ""
    ++ "            cv_results = " ++ funcName ++ "(model, X_for_cv, y_encoded)\n"

def cvTail : String :=
  ""
    ++ "            \n"
    ++ "            # Print CV results\n"
    ++ "            if isinstance(cv_results, dict):\n"
    ++ "                print(f\"\\n    Cross-Validation Results:\")\n"
    ++ "                if 'mean_test_score' in cv_results:\n"
    ++ "                    print(f\"      Mean Test Score: \x7bcv_results['mean_test_score']:.4f\x7d (+/- \x7bcv_results.get('std_test_score', 0):.4f\x7d)\")\n"
    ++ "                if 'mean_train_score' in cv_results:\n"
    ++ "                    print(f\"      Mean Train Score: \x7bcv_results['mean_train_score']:.4f\x7d (+/- \x7bcv_results.get('std_train_score', 0):.4f\x7d)\")\n"
    ++ "                if 'test_scores' in cv_results:\n"
    ++ "                    print(f\"      Individual Fold Scores: \x7b[f'\x7bscore:.4f\x7d' for score in cv_results['test_scores']]\x7d\")\n"
    ++ "            \n"
    ++ "            print(f\"    ✓ Cross-validation completed\")\n"
    ++ "        except Exception as e:\n"
    ++ "            print(f\"    ⚠ Cross-validation failed: \x7be\x7d\")\n"
    ++ "            import traceback\n"
    ++ "            traceback.print_exc()\n"
    ++ "    else:\n"
    ++ "        print(f\"    ⚠ No model or target, skipping cross-validation\")\n"
    ++ "    \n"

def evalBanner (index total : Nat) (compName : String) : String :=
  ""
    ++ "    print(f\"  [" ++ toString index ++ "/" ++ toString total ++ "] Evaluating: " ++ compName ++ "\")\n"
    ++ "    if model is not None and (y is not None or y_train is not None):\n"
    ++ "        try:\n"

def evalSelectBlock : String :=
  ""
    ++ "            # Determine which data to use for evaluation\n"
    ++ "            if split_performed and X_test is not None and y_test is not None:\n"
    ++ "                # Use test set\n"
    ++ "                X_eval = X_test.values if isinstance(X_test, pd.DataFrame) else X_test\n"
    ++ "                y_for_eval = y_test\n"
    ++ "                eval_type = \"test\"\n"
    ++ "                print(f\"    ℹ Evaluating on test set: \x7blen(X_eval)\x7d samples\")\n"
    ++ "            elif split_performed and X_train is not None:\n"
    ++ "                # Use training set (no test available)\n"
    ++ "                X_eval = X_train.values if isinstance(X_train, pd.DataFrame) else X_train\n"
    ++ "                y_for_eval = y_train\n"
    ++ "                eval_type = \"training\"\n"
    ++ "                print(f\"    ⚠ Evaluating on training set: \x7blen(X_eval)\x7d samples\")\n"
    ++ "            else:\n"
    ++ "                # Use all data\n"
    ++ "                X_eval = current_data.values if isinstance(current_data, pd.DataFrame) else current_data\n"
    ++ "                y_for_eval = y\n"
    ++ "                eval_type = \"all data\"\n"
    ++ "                print(f\"    ⚠ Evaluating on all data: \x7blen(X_eval)\x7d samples\")\n"
    ++ "            \n"

def evalEncodePredict : String :=
  ""
    ++ "            # Encode labels if needed\n"
    ++ "            if hasattr(y_for_eval, 'dtype') and y_for_eval.dtype == 'object':\n"
    ++ "                if le is None:\n"
    ++ "                    from sklearn.preprocessing import LabelEncoder\n"
    ++ "                    le = LabelEncoder()\n"
    ++ "                    y_encoded = le.fit_transform(y_for_eval)\n"
    ++ "                else:\n"
    ++ "                    y_encoded = le.transform(y_for_eval)\n"
    ++ "            else:\n"
    ++ "                y_encoded = y_for_eval.values if hasattr(y_for_eval, 'values') else y_for_eval\n"
    ++ "            \n"
    ++ "            # Make predictions\n"
    ++ "            y_pred = model.predict(X_eval)\n"
    ++ "            \n"
    ++ "            # Get probabilities if available\n"
    ++ "            try:\n"
    ++ "                y_pred_proba = model.predict_proba(X_eval)\n"
    ++ "            except:\n"
    ++ "                y_pred_proba = None\n"
    ++ "            \n"
    ++ "            # Calculate metrics\n"

def metricsCallArgsT (funcName varStr : String) : String :=
  ""
    ++ "            metrics = " ++ funcName ++ "(y_encoded, y_pred, y_pred_proba, " ++ varStr ++ ")\n"

def metricsCallNoArgsT (funcName : String) : String :=
  ""
    ++ "            metrics = " ++ funcName ++ "(y_encoded, y_pred, y_pred_proba)\n"

def evalPrintBlock : String :=
  ""
    ++ "            \n"
    ++ "            # Print metrics\n"
    ++ "            if isinstance(metrics, dict):\n"
    ++ "                print(f\"\\n    Metrics (\x7beval_type\x7d set):\")\n"
    ++ "                for key, value in metrics.items():\n"
    ++ "                    if isinstance(value, (int, float)):\n"
    ++ "                        print(f\"      \x7bkey\x7d: \x7bvalue:.4f\x7d\")\n"
    ++ "                    elif key == 'confusion_matrix':\n"
    ++ "                        print(f\"      \x7bkey\x7d:\")\n"
    ++ "                        for row in value:\n"
    ++ "                            print(f\"        \x7brow\x7d\")\n"

def evalEnd : String :=
  ""
    ++ "            \n"
    ++ "            print(f\"    ✓ Evaluation completed\")\n"
    ++ "        except Exception as e:\n"
    ++ "            print(f\"    ⚠ Evaluation failed: \x7be\x7d\")\n"
    ++ "            import traceback\n"
    ++ "            traceback.print_exc()\n"
    ++ "    else:\n"
    ++ "        print(f\"    ⚠ No model or target, skipping evaluation\")\n"
    ++ "    \n"

def validationText : String :=
  ""
    ++ "    # ==============================" ++ "==============================\n"
    ++ "    # VALIDATION CHECK\n"
    ++ "    # ==============================" ++ "==============================\n"
    ++ "    if model is not None and not split_performed and not skip_split_warning:\n"
    ++ "        print(f\"\\n⚠ WARNING: Model was trained but no train/test split was performed!\")\n"
    ++ "        print(f\"  Metrics shown are from training data and may be overly optimistic.\")\n"
    ++ "        print(f\"  Consider adding a train/test split component to Stage 1.\")\n"
    ++ "    \n"

def saveOutputText : String :=
  ""
    ++ "    # ==============================" ++ "==============================\n"
    ++ "    # SAVE OUTPUT\n"
    ++ "    # ==============================" ++ "==============================\n"
    ++ "    print(f\"\\n[SAVING OUTPUT]\")\n"
    ++ "    \n"
    ++ "    # Save processed features\n"
    ++ "    if isinstance(current_data, pd.DataFrame):\n"
    ++ "        current_data.to_csv(output_file, index=False)\n"
    ++ "        print(f\"✓ Processed features saved to: \x7boutput_file\x7d\")\n"
    ++ "    else:\n"
    ++ "        print(f\"⚠ Could not save output (unsupported data type)\")\n"
    ++ "    \n"
    ++ "    # Save test set if available\n"
    ++ "    if X_test is not None:\n"
    ++ "        test_file = output_file.replace('.csv', '_test.csv')\n"
    ++ "        if isinstance(X_test, pd.DataFrame):\n"
    ++ "            X_test.to_csv(test_file, index=False)\n"
    ++ "            print(f\"✓ Test features saved to: \x7btest_file\x7d\")\n"
    ++ "    \n"
    ++ "    print(f\"\\n\x7b'='*60\x7d\")\n"
    ++ "    print(\"PIPELINE COMPLETED\")\n"
    ++ "    print(f\"\x7b'='*60\x7d\")\n"
    ++ "    \n"
    ++ "    return \x7b\n"
    ++ "        'data': current_data,\n"
    ++ "        'model': model,\n"
    ++ "        'label_encoder': le,\n"
    ++ "        'X_train': X_train,\n"
    ++ "        'X_test': X_test,\n"
    ++ "        'y_train': y_train,\n"
    ++ "        'y_test': y_test,\n"
    ++ "        'split_performed': split_performed\n"
    ++ "    \x7d\n"
    ++ "\n"

def mainEntryText : String :=
  ""
    ++ "# ==============================" ++ "==============================\n"
    ++ "# MAIN ENTRY POINT\n"
    ++ "# ==============================" ++ "==============================\n"
    ++ "\n"
    ++ "if __name__ == \"__main__\":\n"
    ++ "    parser = argparse.ArgumentParser(description='Execute ML pipeline')\n"
    ++ "    parser.add_argument('--data', required=True, help='Input CSV file')\n"
    ++ "    parser.add_argument('--target', default='target', help='Target column name (default: target)')\n"
    ++ "    parser.add_argument('--output', default='output.csv', help='Output file (default: output.csv)')\n"
    ++ "    parser.add_argument('--skip-split-warning', action='store_true', help='Skip train/test split warning')\n"
    ++ "    \n"
    ++ "    args = parser.parse_args()\n"
    ++ "    \n"
    ++ "    try:\n"
    ++ "        result = execute_pipeline(args.data, args.target, args.output, args.skip_split_warning)\n"
    ++ "        print(f\"\\n✓ Pipeline executed successfully!\")\n"
    ++ "        \n"
    ++ "        if result['model'] is not None:\n"
    ++ "            print(f\"✓ Model trained and ready to use\")\n"
    ++ "        \n"
    ++ "        if result['split_performed']:\n"
    ++ "            print(f\"✓ Train/test split performed\")\n"
    ++ "            if result['X_test'] is not None:\n"
    ++ "                print(f\"  - Training samples: \x7blen(result['X_train'])\x7d\")\n"
    ++ "                print(f\"  - Test samples: \x7blen(result['X_test'])\x7d\")\n"
    ++ "        \n"
    ++ "    except FileNotFoundError as e:\n"
    ++ "        print(f\"\\n❌ Error: File not found - \x7be\x7d\")\n"
    ++ "        print(f\"Make sure the file '\x7bargs.data\x7d' exists\")\n"
    ++ "        sys.exit(1)\n"
    ++ "    except KeyError as e:\n"
    ++ "        print(f\"\\n❌ Error: Column not found - \x7be\x7d\")\n"
    ++ "        print(f\"Make sure the target column '\x7bargs.target\x7d' exists in your CSV\")\n"
    ++ "        sys.exit(1)\n"
    ++ "    except Exception as e:\n"
    ++ "        print(f\"\\n❌ Error: \x7be\x7d\")\n"
    ++ "        import traceback\n"
    ++ "        traceback.print_exc()\n"
    ++ "        sys.exit(1)\n"


/-! ### Stage partitioning and script assembly -/

/-- A Go `map[int][]Node`: the list of keys in insertion order plus the
lookup function.  Reading an absent key yields the zero value (`[]`). -/
structure GoIntMap (α : Type) where
  keys : List Int
  find : Int → α

/-- `make(map[int][]Node)` (reads of missing keys give `zero`). -/
def GoIntMap.empty (zero : α) : GoIntMap α := ⟨[], fun _ => zero⟩

/-- Go map assignment `m[k] = v`. -/
def GoIntMap.set (m : GoIntMap α) (k : Int) (v : α) : GoIntMap α :=
  ⟨if k ∈ m.keys then m.keys else m.keys ++ [k], fun j => if j = k then v else m.find j⟩

/-- The body of the `range nodes` loop of `organizeByStage`: normalize the
stage to 1 when outside 1..4, then append the node to that bucket. -/
def orgStep (m : GoIntMap (List Node)) (node : Node) : GoIntMap (List Node) :=
  let stage := if node.stage < 1 ∨ 4 < node.stage then 1 else node.stage
  m.set stage (m.find stage ++ [node])

/-- `func organizeByStage(nodes []Node) map[int][]Node`: buckets 1..4 are
initialized to empty, then nodes are appended in input order. -/
def organizeByStage (nodes : List Node) : GoIntMap (List Node) :=
  nodes.foldl orgStep (((((GoIntMap.empty []).set 1 []).set 2 []).set 3 []).set 4 [])

/-- `func generateComponentExecution(node Node, index, total, stage int) string`:
the per-node text block, assembled from the templates above exactly as the
source appends them to its `strings.Builder`. -/
def generateComponentExecution (node : Node) (index total : Nat) (stage : Int) : String :=
  let compName := compNameOf node
  let funcName := funcNameOf node
  let varStr := buildVariablesString node.vars
  (if stage = 1 ∨ stage = 2 then
    stage12Head index total compName
      ++ (if isSplitComponent funcName then
            (let filteredVarStr := filterOutParameter varStr "target_column"
             if filteredVarStr ≠ "" then splitCallArgsT funcName filteredVarStr
             else splitCallNoArgsT funcName)
          else
            (if varStr ≠ "" then resultCallArgsT funcName varStr
             else resultCallNoArgsT funcName)
              ++ tupleUnwrap
              ++ (if isRowFilteringComponent funcName then syncBlock else ""))
      ++ stage12Tail
   else "")
  ++ (if stage = 3 then
        stage3Head index total compName
          ++ (if varStr ≠ "" then modelCallArgsT funcName varStr else modelCallNoArgsT funcName)
          ++ stage3Tail
      else "")
  ++ (if stage = 4 then
        (if isCrossValidationComponent funcName then
          cvHead index total compName
            ++ (if varStr ≠ "" then cvCallArgsT funcName varStr else cvCallNoArgsT funcName)
            ++ cvTail
        else
          evalBanner index total compName ++ evalSelectBlock ++ evalEncodePredict
            ++ (if varStr ≠ "" then metricsCallArgsT funcName varStr else metricsCallNoArgsT funcName)
            ++ evalPrintBlock ++ evalEnd)
      else "")

/-- The inner `for i, node := range nodes` loop of the stage loop: each node
is rendered with 1-based index `i+1` and the bucket size as `total`. -/
def genNodesLoop (nodes : List Node) (total : Nat) (stage : Int) (index : Nat) : String :=
  match nodes with
  | [] => ""
  | n :: rest => generateComponentExecution n index total stage ++ genNodesLoop rest total stage (index + 1)

/-- One iteration of the stage loop of `GenerateExecutableScript`: empty
buckets are skipped (`continue`), non-empty ones get a banner plus the
rendered nodes. -/
def stageSection (stages : GoIntMap (List Node)) (stageNum : Int) : String :=
  let nodes := stages.find stageNum
  if nodes.isEmpty then ""
  else stageBanner stageNum ++ genNodesLoop nodes nodes.length stageNum 1

/-- `func GenerateExecutableScript(workflow WorkflowConfig, componentCode string)
(string, error)`.  `now` is the value of `time.Now().Format(time.RFC3339)`
read inside the function, made an explicit parameter; the `error` result is
the `Option String` component — the source returns `sb.String(), nil`
unconditionally, so it is always `none`.  (The initial
`fmt.Println(workflow.Nodes)` only writes to stdout and does not affect the
result.) -/
def GenerateExecutableScript (workflow : WorkflowConfig) (componentCode now : String) :
    String × Option String :=
  let stages := organizeByStage workflow.nodes
  (scriptHeader now workflow.version workflow.nodes.length componentCode
     ++ stageSection stages 1 ++ stageSection stages 2 ++ stageSection stages 3
     ++ stageSection stages 4
     ++ validationText ++ saveOutputText ++ mainEntryText,
   none)

/-! ### General helper lemmas -/

/-- Left-cancellation for string concatenation. -/
theorem strCancelLeft {a b c : String} (h : a ++ b = a ++ c) : b = c := by
  have h2 := congrArg String.data h
  simp only [String.data_append] at h2
  exact String.ext (List.append_cancel_left h2)

/-- Right-cancellation for string concatenation. -/
theorem strCancelRight {a b c : String} (h : a ++ c = b ++ c) : a = b := by
  have h2 := congrArg String.data h
  simp only [String.data_append] at h2
  exact String.ext (List.append_cancel_right h2)

/-! ### The stage partition -/

/-- The normalized stage: `stageNumber` when it lies in 1..4, else 1 (the
`if stage < 1 || stage > 4 { stage = 1 }` normalization of `organizeByStage`,
written as the spec phrases it). -/
def effStage (s : Int) : Int := if 1 ≤ s ∧ s ≤ 4 then s else 1

theorem orgStep_stage_eq (n : Node) :
    (if n.stage < 1 ∨ 4 < n.stage then 1 else n.stage) = effStage n.stage := by
  unfold effStage
  split <;> split <;> omega

theorem orgStep_find (m : GoIntMap (List Node)) (n : Node) (k : Int) :
    (orgStep m n).find k =
      if effStage n.stage = k then m.find k ++ [n] else m.find k := by
  simp only [orgStep, GoIntMap.set, orgStep_stage_eq n]
  by_cases hk : effStage n.stage = k
  · subst hk
    simp
  · rw [if_neg (fun h => hk h.symm), if_neg hk]

theorem orgStep_keys (m : GoIntMap (List Node)) (n : Node)
    (h : m.keys = [1, 2, 3, 4]) : (orgStep m n).keys = [1, 2, 3, 4] := by
  simp only [orgStep, GoIntMap.set, orgStep_stage_eq n, h]
  have hmem : effStage n.stage ∈ ([1, 2, 3, 4] : List Int) := by
    unfold effStage
    by_cases h2 : 1 ≤ n.stage ∧ n.stage ≤ 4
    · simp only [if_pos h2, List.mem_cons, List.mem_singleton]
      omega
    · simp [if_neg h2]
  simp [hmem]

theorem foldl_org_find (ns : List Node) (m : GoIntMap (List Node)) (k : Int) :
    (ns.foldl orgStep m).find k =
      m.find k ++ ns.filter (fun n => effStage n.stage == k) := by
  induction ns generalizing m with
  | nil => simp
  | cons n ns ih =>
    simp only [List.foldl_cons, ih, orgStep_find, List.filter_cons]
    by_cases h : effStage n.stage = k
    · simp [h]
    · simp [h]

theorem foldl_org_keys (ns : List Node) (m : GoIntMap (List Node))
    (h : m.keys = [1, 2, 3, 4]) : (ns.foldl orgStep m).keys = [1, 2, 3, 4] := by
  induction ns generalizing m with
  | nil => exact h
  | cons n ns ih => exact ih _ (orgStep_keys _ _ h)

theorem org_init_keys :
    ((((((GoIntMap.empty ([] : List Node)).set 1 []).set 2 []).set 3 []).set 4 []).keys)
      = [1, 2, 3, 4] := by
  decide

theorem org_init_find (k : Int) :
    ((((((GoIntMap.empty ([] : List Node)).set 1 []).set 2 []).set 3 []).set 4 []).find k)
      = [] := by
  simp only [GoIntMap.empty, GoIntMap.set]
  split_ifs <;> rfl

theorem filter_effStage_sum (ns : List Node) :
    (ns.filter (fun n => effStage n.stage == 1)).length
      + (ns.filter (fun n => effStage n.stage == 2)).length
      + (ns.filter (fun n => effStage n.stage == 3)).length
      + (ns.filter (fun n => effStage n.stage == 4)).length = ns.length := by
  induction ns with
  | nil => simp
  | cons n ns ih =>
    have he : effStage n.stage = 1 ∨ effStage n.stage = 2 ∨ effStage n.stage = 3
        ∨ effStage n.stage = 4 := by
      unfold effStage
      split <;> omega
    simp only [List.filter_cons, List.length_cons]
    rcases he with h | h | h | h <;> simp only [h] <;> norm_num <;> omega

/-- C3: `organizeByStage` returns a map with exactly the keys 1,2,3,4 (each
present even when its bucket is empty); bucket `k` is exactly the input-order
sublist of nodes with `effStage stageNumber = k` (so every node lands in
exactly one bucket, order-preserved, with out-of-range stages such as 0 and 7
normalized to bucket 1), the bucket sizes sum to the input length, and the
function is total (it never fails). -/
theorem organizeByStage_partition (ns : List Node) :
    (organizeByStage ns).keys = [1, 2, 3, 4]
    ∧ (organizeByStage ns).find 1 = ns.filter (fun n => effStage n.stage == 1)
    ∧ (organizeByStage ns).find 2 = ns.filter (fun n => effStage n.stage == 2)
    ∧ (organizeByStage ns).find 3 = ns.filter (fun n => effStage n.stage == 3)
    ∧ (organizeByStage ns).find 4 = ns.filter (fun n => effStage n.stage == 4)
    ∧ ((organizeByStage ns).find 1).length + ((organizeByStage ns).find 2).length
        + ((organizeByStage ns).find 3).length + ((organizeByStage ns).find 4).length
        = ns.length
    ∧ effStage 0 = 1 ∧ effStage 7 = 1 := by
  have hfind : ∀ k : Int, (organizeByStage ns).find k
      = ns.filter (fun n => effStage n.stage == k) := by
    intro k
    unfold organizeByStage
    rw [foldl_org_find, org_init_find]
    rfl
  refine ⟨?_, hfind 1, hfind 2, hfind 3, hfind 4, ?_, by decide, by decide⟩
  · unfold organizeByStage
    exact foldl_org_keys _ _ org_init_keys
  · rw [hfind 1, hfind 2, hfind 3, hfind 4]
    exact filter_effStage_sum ns

/-- C4: for a stage-1 or stage-2 node whose derived callable name matches the
split pattern, the emitted block is the `splitCallArgsT`/`splitCallNoArgsT`
template: guarded by `if y is not None:`, it calls the callable as
`funcName(df, target_column, <bindings minus target_column>)` (dataframe and
label column positional; `filterOutParameter` removes any `target_column`
binding), assigns `X_train, X_test, y_train, y_test`, and sets
`split_performed = True`. -/
theorem split_component_call_shape (node : Node) (index total : Nat) (stage : Int)
    (hs : stage = 1 ∨ stage = 2)
    (hsplit : isSplitComponent (funcNameOf node) = true) :
    generateComponentExecution node index total stage =
      stage12Head index total (compNameOf node)
        ++ (if filterOutParameter (buildVariablesString node.vars) "target_column" = "" then
              splitCallNoArgsT (funcNameOf node)
            else
              splitCallArgsT (funcNameOf node)
                (filterOutParameter (buildVariablesString node.vars) "target_column"))
        ++ stage12Tail := by
  by_cases hf : filterOutParameter (buildVariablesString node.vars) "target_column" = ""
    <;> rcases hs with h | h <;> subst h
    <;> simp [generateComponentExecution, hsplit, hf, String.append_assoc]

/-- C5: for a stage-1 or stage-2 node whose derived callable name does not
match the split pattern, the emitted block is the plain
`result = funcName(current_data, ...)` call plus the tuple unwrap, and it
contains the label-synchronization branch `syncBlock` (which re-indexes `y`
to `current_data.index` exactly under the emitted guard "no split performed
yet and the transformed row count differs from the label count") if and only
if the callable name matches the row-filtering pattern. -/
theorem row_filter_sync_branch (node : Node) (index total : Nat) (stage : Int)
    (hs : stage = 1 ∨ stage = 2)
    (hns : isSplitComponent (funcNameOf node) = false) :
    generateComponentExecution node index total stage =
      stage12Head index total (compNameOf node)
        ++ (if buildVariablesString node.vars = "" then
              resultCallNoArgsT (funcNameOf node)
            else resultCallArgsT (funcNameOf node) (buildVariablesString node.vars))
        ++ tupleUnwrap
        ++ (if isRowFilteringComponent (funcNameOf node) = true then syncBlock else "")
        ++ stage12Tail := by
  by_cases hv : buildVariablesString node.vars = ""
    <;> rcases hs with h | h <;> subst h
    <;> simp [generateComponentExecution, hns, hv, String.append_assoc]

/-- C6: for a stage-4 node whose derived callable name does not match the
cross-validation pattern, the emitted block is `evalBanner ++ evalSelectBlock
++ evalEncodePredict ++ <metrics call> ++ evalPrintBlock ++ evalEnd`:
`evalSelectBlock` selects the evaluation data in the preference order
test split, else train split (with a `⚠` warning), else the whole dataset
(with a `⚠` warning), and `evalPrintBlock` prints numeric metric entries
with `:.4f` (4 decimal places) and a `confusion_matrix` entry row by row. -/
theorem eval_component_shape (node : Node) (index total : Nat)
    (hcv : isCrossValidationComponent (funcNameOf node) = false) :
    generateComponentExecution node index total 4 =
      evalBanner index total (compNameOf node) ++ evalSelectBlock ++ evalEncodePredict
        ++ (if buildVariablesString node.vars = "" then
              metricsCallNoArgsT (funcNameOf node)
            else metricsCallArgsT (funcNameOf node) (buildVariablesString node.vars))
        ++ evalPrintBlock ++ evalEnd := by
  by_cases hv : buildVariablesString node.vars = ""
    <;> simp [generateComponentExecution, hcv, hv, String.append_assoc]

/-! ### Concrete values used by closed theorems -/

/-- The `float64` value 1.0*n as an exact rational, written with explicit
numerator/denominator so projections reduce by kernel computation. -/
def qInt (n : Int) : ℚ := ⟨n, 1, one_ne_zero, Nat.coprime_one_right _⟩

/-- The `float64` value 0.25 as an exact rational. -/
def qQuarter : ℚ := ⟨1, 4, by omega, Nat.coprime_one_left 4⟩

/-- A split-named node ("Train Test Split", no explicit code identifier) with
a `target_column` binding that `filterOutParameter` has to remove. -/
def wSplitNode : Node :=
  ⟨"s1", "Train Test Split", 1, "", "", [], [],
    [("test_size", JValue.str "0.2"), ("target_column", JValue.str "label")]⟩

/-- A row-filter-named stage-1 node. -/
def wFilterNode : Node :=
  ⟨"f1", "Remove Outliers", 1, "", "", [], [], [("threshold", JValue.str "3")]⟩

/-- A stage-4 metrics node whose name matches no cross-validation keyword. -/
def wMetricsNode : Node := ⟨"m1", "Calculate Metrics", 4, "", "", [], [], []⟩

/-- Witness for `split_component_call_shape`: the node "Train Test Split"
(derived callable `train_test_split`) at stage 1. -/
theorem split_component_call_shape_witness :
    isSplitComponent (funcNameOf wSplitNode) = true
    ∧ generateComponentExecution wSplitNode 1 1 1 =
        stage12Head 1 1 (compNameOf wSplitNode)
          ++ (if filterOutParameter (buildVariablesString wSplitNode.vars) "target_column" = "" then
                splitCallNoArgsT (funcNameOf wSplitNode)
              else
                splitCallArgsT (funcNameOf wSplitNode)
                  (filterOutParameter (buildVariablesString wSplitNode.vars) "target_column"))
          ++ stage12Tail :=
  ⟨by decide, split_component_call_shape wSplitNode 1 1 1 (Or.inl rfl) (by decide)⟩

/-- Witness for `row_filter_sync_branch`: the node "Remove Outliers"
(derived callable `remove_outliers`, matching the row-filtering pattern)
at stage 1. -/
theorem row_filter_sync_branch_witness :
    isSplitComponent (funcNameOf wFilterNode) = false
    ∧ isRowFilteringComponent (funcNameOf wFilterNode) = true
    ∧ generateComponentExecution wFilterNode 1 1 1 =
        stage12Head 1 1 (compNameOf wFilterNode)
          ++ (if buildVariablesString wFilterNode.vars = "" then
                resultCallNoArgsT (funcNameOf wFilterNode)
              else resultCallArgsT (funcNameOf wFilterNode) (buildVariablesString wFilterNode.vars))
          ++ tupleUnwrap
          ++ (if isRowFilteringComponent (funcNameOf wFilterNode) = true then syncBlock else "")
          ++ stage12Tail :=
  ⟨by decide, by decide, row_filter_sync_branch wFilterNode 1 1 1 (Or.inl rfl) (by decide)⟩

/-- Witness for `eval_component_shape`: the node "Calculate Metrics" (derived
callable `calculate_metrics`, not cross-validation-named) at stage 4. -/
theorem eval_component_shape_witness :
    isCrossValidationComponent (funcNameOf wMetricsNode) = false
    ∧ generateComponentExecution wMetricsNode 1 1 4 =
        evalBanner 1 1 (compNameOf wMetricsNode) ++ evalSelectBlock ++ evalEncodePredict
          ++ (if buildVariablesString wMetricsNode.vars = "" then
                metricsCallNoArgsT (funcNameOf wMetricsNode)
              else metricsCallArgsT (funcNameOf wMetricsNode) (buildVariablesString wMetricsNode.vars))
          ++ evalPrintBlock ++ evalEnd :=
  ⟨by decide, eval_component_shape wMetricsNode 1 1 (by decide)⟩

/-- C7: the worked serialization examples of the spec: `100.0` (an integral
float) serializes to the integer form `100`; `0.25` to the fixed-float form
`0.250000`; an empty-string binding is omitted entirely; a plain string is
single-quoted. -/
theorem binding_serialization_examples :
    buildVariablesString [("n_estimators", JValue.num (qInt 100))] = "n_estimators=100"
    ∧ buildVariablesString [("ratio", JValue.num qQuarter)] = "ratio=0.250000"
    ∧ buildVariablesString [("label", JValue.str ""), ("mode", JValue.str "auto")] = "mode='auto'"
    ∧ buildVariablesString [("mode", JValue.str "auto")] = "mode='auto'" :=
  ⟨by decide, by decide, by decide, by decide⟩

/-- C9 counterexample: inside a sequence binding, string elements are NOT
formatted by the top-level string rules: the keyword spelling "None" (which
the top level leaves unquoted) is single-quoted inside a list. -/
theorem list_elements_not_top_level_rules :
    buildVariablesString [("xs", JValue.arr [JValue.str "None"])] = "xs=['None']"
    ∧ buildVariablesString [("mode", JValue.str "None")] = "mode=None"
    ∧ ("xs=['None']" : String) ≠ "xs=[None]" :=
  ⟨by decide, by decide, by decide⟩

/-- C9 amended: a sequence binding is emitted as a bracketed, comma-joined
list in which number elements follow the integer/fixed-float rules, but
string elements are always single-quoted (keyword spellings and
numeric-looking strings included), and boolean elements fall through to the
generic `%v` stringification (lowercase `true`/`false`). -/
theorem list_element_formatting :
    (∀ (key : String) (xs : List JValue),
        buildVariablesString [(key, JValue.arr xs)] = key ++ "=" ++ formatList xs)
    ∧ (∀ xs : List JValue,
        formatList xs = "[" ++ joinSep ", " (xs.map formatListElem) ++ "]")
    ∧ (∀ s : String, formatListElem (JValue.str s) = "'" ++ s ++ "'")
    ∧ (∀ q : ℚ, formatListElem (JValue.num q)
        = (if q.den = 1 then toString q.num else fmtFixed6 q))
    ∧ (∀ b : Bool, formatListElem (JValue.bool b) = (if b then "true" else "false")) := by
  refine ⟨?_, fun xs => rfl, fun s => rfl, fun q => rfl, fun b => ?_⟩
  · intro key xs
    simp [buildVariablesString, formatBinding, joinSep]
  · cases b <;> rfl

/-- C10: every binding whose string value `isNumeric` accepts — i.e.
`strconv.ParseFloat` succeeds on it, which includes non-plain-numeral
spellings such as "inf", "Infinity", "NaN" and "1e5" — is classified numeric
and emitted unquoted, verbatim, as `key=value`. -/
theorem parsefloat_strings_unquoted (key s : String) (h : isNumeric s = true) :
    buildVariablesString [(key, JValue.str s)] = key ++ "=" ++ s := by
  have hne : ¬ s = "" := by
    intro he
    subst he
    exact absurd h (by decide)
  have hb : formatBinding key (JValue.str s) = some (key ++ "=" ++ s) := by
    simp only [formatBinding]
    rw [if_neg hne]
    split <;> simp [h]
  simp [buildVariablesString, hb, joinSep]

/-- Witness for `parsefloat_strings_unquoted` at "inf", "Infinity", "NaN"
and "1e5". -/
theorem parsefloat_strings_unquoted_witness :
    (isNumeric "inf" = true ∧ buildVariablesString [("x", JValue.str "inf")] = "x=inf")
    ∧ (isNumeric "Infinity" = true
        ∧ buildVariablesString [("x", JValue.str "Infinity")] = "x=Infinity")
    ∧ (isNumeric "NaN" = true ∧ buildVariablesString [("x", JValue.str "NaN")] = "x=NaN")
    ∧ (isNumeric "1e5" = true ∧ buildVariablesString [("x", JValue.str "1e5")] = "x=1e5") :=
  ⟨⟨by decide, parsefloat_strings_unquoted "x" "inf" (by decide)⟩,
   ⟨by decide, parsefloat_strings_unquoted "x" "Infinity" (by decide)⟩,
   ⟨by decide, parsefloat_strings_unquoted "x" "NaN" (by decide)⟩,
   ⟨by decide, parsefloat_strings_unquoted "x" "1e5" (by decide)⟩⟩

/-! ### Concrete manifests for the assembler-level theorems -/

/-- A manifest with an empty node list. -/
def wfEmptyManifest : WorkflowConfig := ⟨"1.0", "", []⟩

/-- A node with no display name and no code identifier: no resolvable
callable name. -/
def wNoNameNode : Node := ⟨"n1", "", 1, "", "", [], [], []⟩

/-- A manifest containing only the unnamed node. -/
def wfNoNameManifest : WorkflowConfig := ⟨"1.0", "", [wNoNameNode]⟩

/-- A stage-1 node whose two variable bindings are listed in one iteration
order. -/
def wOrderNodeA : Node :=
  ⟨"n1", "Scale Features", 1, "", "scale", [], [],
    [("a", JValue.num (qInt 1)), ("b", JValue.num (qInt 2))]⟩

/-- The same node with the same two bindings in the other iteration order
(the same Go map). -/
def wOrderNodeB : Node :=
  ⟨"n1", "Scale Features", 1, "", "scale", [], [],
    [("b", JValue.num (qInt 2)), ("a", JValue.num (qInt 1))]⟩

/-- Manifest containing `wOrderNodeA`. -/
def wfOrderA : WorkflowConfig := ⟨"1.0", "", [wOrderNodeA]⟩

/-- Manifest containing `wOrderNodeB`. -/
def wfOrderB : WorkflowConfig := ⟨"1.0", "", [wOrderNodeB]⟩

set_option maxRecDepth 16000

/-- C1 (code bug): `buildVariablesString` emits the bindings in map iteration
order, which Go randomizes per run: the same two-entry map (the two lists
below are permutations of each other) serializes to `"a=1, b=2"` under one
iteration order and to `"b=2, a=1"` under the other, and the two full
generated scripts differ even with identical manifest, body text and
timestamp — the claimed stable order / byte-identical reproducibility does
not hold on this code. -/
theorem buildVariablesString_map_order_dependence :
    wOrderNodeA.vars.Perm wOrderNodeB.vars
    ∧ buildVariablesString wOrderNodeA.vars = "a=1, b=2"
    ∧ buildVariablesString wOrderNodeB.vars = "b=2, a=1"
    ∧ buildVariablesString wOrderNodeA.vars ≠ buildVariablesString wOrderNodeB.vars
    ∧ (GenerateExecutableScript wfOrderA "" "TS").1
        ≠ (GenerateExecutableScript wfOrderB "" "TS").1 := by
  refine ⟨List.Perm.swap _ _ _, by decide, by decide, by decide, ?_⟩
  intro hEq
  have h1 : (GenerateExecutableScript wfOrderA "" "TS").1
      = scriptHeader "TS" "1.0" 1 ""
          ++ (stageBanner 1 ++ (generateComponentExecution wOrderNodeA 1 1 1
          ++ (validationText ++ (saveOutputText ++ mainEntryText)))) := by
    simp [GenerateExecutableScript, stageSection, organizeByStage, orgStep,
      GoIntMap.empty, GoIntMap.set, genNodesLoop, wfOrderA, wOrderNodeA,
      String.append_assoc]
  have h2 : (GenerateExecutableScript wfOrderB "" "TS").1
      = scriptHeader "TS" "1.0" 1 ""
          ++ (stageBanner 1 ++ (generateComponentExecution wOrderNodeB 1 1 1
          ++ (validationText ++ (saveOutputText ++ mainEntryText)))) := by
    simp [GenerateExecutableScript, stageSection, organizeByStage, orgStep,
      GoIntMap.empty, GoIntMap.set, genNodesLoop, wfOrderB, wOrderNodeB,
      String.append_assoc]
  rw [h1, h2] at hEq
  have h3 := strCancelRight (strCancelLeft (strCancelLeft hEq))
  exact absurd h3 (by decide)

/-- C2 (code bug): `GenerateExecutableScript` never fails fast — it returns a
`nil` error both for the empty manifest and for a manifest whose only node
has no resolvable callable name, and in the latter case the returned script
contains the empty callable invocation `result = (current_data)` (the derived
callable name is the empty string). -/
theorem generate_returns_script_for_malformed_manifest :
    (GenerateExecutableScript wfEmptyManifest "" "TS").2 = none
    ∧ (GenerateExecutableScript wfNoNameManifest "" "TS").2 = none
    ∧ funcNameOf wNoNameNode = ""
    ∧ (GenerateExecutableScript wfNoNameManifest "" "TS").1
        = scriptHeader "TS" "1.0" 1 ""
            ++ (stageBanner 1 ++ (generateComponentExecution wNoNameNode 1 1 1
            ++ (validationText ++ (saveOutputText ++ mainEntryText))))
    ∧ strOcc (generateComponentExecution wNoNameNode 1 1 1) "result = (current_data)" = 1 := by
  refine ⟨rfl, rfl, by decide, ?_, by decide⟩
  simp [GenerateExecutableScript, stageSection, organizeByStage, orgStep,
    GoIntMap.empty, GoIntMap.set, genNodesLoop, wfNoNameManifest, wNoNameNode,
    String.append_assoc]

/-- C8 counterexample: the generated script does not map the three failure
classes to distinct exit codes: in a concretely generated script the whole
text contains exactly three occurrences of `sys.exit(` — one per handler
(`FileNotFoundError`, `KeyError`, `Exception`), all inside `mainEntryText` —
and all three are `sys.exit(1)`, the same code. -/
theorem exit_codes_not_distinct :
    (GenerateExecutableScript wfEmptyManifest "" "TS").1
        = scriptHeader "TS" "1.0" 0 ""
            ++ (validationText ++ (saveOutputText ++ mainEntryText))
    ∧ strOcc mainEntryText "sys.exit(" = 3
    ∧ strOcc mainEntryText "sys.exit(1)" = 3
    ∧ strOcc (scriptHeader "TS" "1.0" 0 "") "sys.exit(" = 0
    ∧ strOcc validationText "sys.exit(" = 0
    ∧ strOcc saveOutputText "sys.exit(" = 0 := by
  refine ⟨?_, by decide, by decide, by decide, by decide, by decide⟩
  simp [GenerateExecutableScript, stageSection, organizeByStage, GoIntMap.empty,
    GoIntMap.set, wfEmptyManifest, String.append_assoc]

/-- C8 amended: every generated script ends with the fixed `mainEntryText`
entry point, which parses `--data` (required), `--target` (default
`'target'`), `--output` (default `'output.csv'`) and `--skip-split-warning`
(boolean flag), and maps file-not-found, missing-column and generic failures
to the same non-zero exit code 1, distinguishable only by their printed
messages. -/
theorem cli_flags_and_uniform_exit_code :
    (∀ (workflow : WorkflowConfig) (componentCode now : String),
        ∃ p, (GenerateExecutableScript workflow componentCode now).1 = p ++ mainEntryText)
    ∧ strOcc mainEntryText "parser.add_argument('--data', required=True" = 1
    ∧ strOcc mainEntryText "parser.add_argument('--target', default='target'" = 1
    ∧ strOcc mainEntryText "parser.add_argument('--output', default='output.csv'" = 1
    ∧ strOcc mainEntryText "parser.add_argument('--skip-split-warning', action='store_true'" = 1
    ∧ strOcc mainEntryText "except FileNotFoundError as e:" = 1
    ∧ strOcc mainEntryText "except KeyError as e:" = 1
    ∧ strOcc mainEntryText "except Exception as e:" = 1
    ∧ strOcc mainEntryText "sys.exit(" = 3
    ∧ strOcc mainEntryText "sys.exit(1)" = 3
    ∧ strOcc mainEntryText "Error: File not found" = 1
    ∧ strOcc mainEntryText "Error: Column not found" = 1 :=
  ⟨fun workflow componentCode now => ⟨_, rfl⟩,
   by decide, by decide, by decide, by decide, by decide, by decide, by decide,
   by decide, by decide, by decide, by decide⟩

end BuilderBackend
